import Mathlib

/-!
# Repo Doctor — Alert Evaluation & Dispatch Engine

A shallow embedding of `src/lib/alerts.ts` (the alert evaluation and
dispatch engine of the Repo-Doctor repository) together with proofs of the
specification claims about it.

Conventions of the embedding:
* JavaScript timestamps (`Date.getTime()`) are integers of milliseconds (`Int`).
* JavaScript numbers fed to the settings sanitizer are modelled by `NumInput`:
  a rational for finite numbers, plus the infinities, plus a single `invalid`
  constructor covering `undefined`, non-number values and `NaN` (all of which
  `clampNumber` treats alike).
* A paginated GitHub API stream is modelled by the full list the API would
  serve; the page loop of the source (pages of 100, hard page cap, early stop
  on a short page) is `paginate`, proved equal to `List.take (pages * 100)`.
* The MongoDB `alert_deliveries` collection is a `List DeliveryEvent`;
  `findOne` sorted by `sentAt` descending is `lastSentMs` (the maximum
  `sentAt` among matching events, `0` when there is none, mirroring
  `lastSent?.sentAt ? new Date(lastSent.sentAt).getTime() : 0`).
* The webhook transport is a boolean parameter `transportOk`: `false` means
  the endpoint answers with a non-success status, which `sendWebhook` turns
  into a thrown error (`DispatchError.transportFailed`).
-/

namespace RepoDoctor

/-- `MS_PER_DAY` from the source (86,400,000 milliseconds). -/
def MS_PER_DAY : Int := 86400000

/-- `PER_PAGE` from the source. -/
def PER_PAGE : Nat := 100

/-- `MAX_OPEN_PR_PAGES` from the source. -/
def MAX_OPEN_PR_PAGES : Nat := 5

/-- `MAX_STALE_SCAN_PAGES` from the source. -/
def MAX_STALE_SCAN_PAGES : Nat := 10

/-- The three alert rule identifiers (`AlertId` in the source). -/
inductive AlertId where
  | NO_COMMITS
  | PR_STUCK
  | STALE_SPIKE
deriving DecidableEq, Repr

/-- `AlertSeverity` from the source. -/
inductive AlertSeverity where
  | HIGH
  | MEDIUM
  | LOW
deriving DecidableEq, Repr

/-- `AlertChannel` from the source. -/
inductive AlertChannel where
  | auto
  | webhook
  | slack
  | discord
deriving DecidableEq, Repr

/-- The `rules` record inside `AlertSettings`. -/
structure AlertRules where
  noCommitDays : Int
  prStuckDays : Int
  staleSpikeCount : Int
  staleWindowDays : Int
deriving DecidableEq, Repr

/-- `AlertSettings` from the source. -/
structure AlertSettings where
  enabled : Bool
  cooldownHours : Int
  rules : AlertRules
deriving DecidableEq, Repr

/-- `DEFAULT_ALERT_SETTINGS` from the source. -/
def DEFAULT_ALERT_SETTINGS : AlertSettings :=
  { enabled := true
    cooldownHours := 24
    rules :=
      { noCommitDays := 7
        prStuckDays := 3
        staleSpikeCount := 5
        staleWindowDays := 7 } }

/-- A JavaScript value observed by `clampNumber`. `invalid` stands for any
value with `typeof value !== 'number'` (missing, `null`, strings, …) and for
`NaN`; the source treats all of these identically (fallback). Finite numbers
are rationals (IEEE doubles are a subset of `ℚ` and all operations of
`clampNumber` are exact on them). -/
inductive NumInput where
  | invalid
  | posInf
  | negInf
  | fin (q : ℚ)
deriving DecidableEq

/-- ECMAScript `Math.round`: the closest integral value, ties towards
+∞, i.e. `⌊q + 1/2⌋`. -/
def jsRound (q : ℚ) : Int := ⌊q + 1 / 2⌋

/-- `clampNumber` from the source:
`if (typeof value !== 'number' || Number.isNaN(value)) return fallback;
 return Math.min(max, Math.max(min, Math.round(value)));`.
On `+∞` the min/max chain yields `hi`, on `-∞` it yields `lo`. -/
def clampNumber (value : NumInput) (lo hi fallback : Int) : Int :=
  match value with
  | .invalid => fallback
  | .posInf => hi
  | .negInf => lo
  | .fin q => min hi (max lo (jsRound q))

/-- The `enabled` field of an untrusted settings object: either a genuine
boolean or anything else (`typeof source.enabled !== 'boolean'`). -/
inductive BoolInput where
  | notBool
  | val (b : Bool)
deriving DecidableEq

/-- The untrusted `rules` object. -/
structure RulesInput where
  noCommitDays : NumInput
  prStuckDays : NumInput
  staleSpikeCount : NumInput
  staleWindowDays : NumInput
deriving DecidableEq

/-- An untrusted partial settings object (the argument of
`sanitizeSettings`). `rules = none` models an absent/falsy `rules` field. -/
structure SettingsInput where
  enabled : BoolInput
  cooldownHours : NumInput
  rules : Option RulesInput
deriving DecidableEq

/-- The empty object `{}` that `input || {}` substitutes for a null or
undefined input. -/
def emptySettingsInput : SettingsInput :=
  { enabled := .notBool, cooldownHours := .invalid, rules := none }

/-- The empty rules object substituted by `source.rules || {}`. -/
def emptyRulesInput : RulesInput :=
  { noCommitDays := .invalid
    prStuckDays := .invalid
    staleSpikeCount := .invalid
    staleWindowDays := .invalid }

/-- `sanitizeSettings` from the source. -/
def sanitizeSettings (input : Option SettingsInput) : AlertSettings :=
  let source := input.getD emptySettingsInput
  let sourceRules := source.rules.getD emptyRulesInput
  { enabled :=
      match source.enabled with
      | .val b => b
      | .notBool => DEFAULT_ALERT_SETTINGS.enabled
    cooldownHours :=
      clampNumber source.cooldownHours 1 168 DEFAULT_ALERT_SETTINGS.cooldownHours
    rules :=
      { noCommitDays :=
          clampNumber sourceRules.noCommitDays 1 180
            DEFAULT_ALERT_SETTINGS.rules.noCommitDays
        prStuckDays :=
          clampNumber sourceRules.prStuckDays 1 90
            DEFAULT_ALERT_SETTINGS.rules.prStuckDays
        staleSpikeCount :=
          clampNumber sourceRules.staleSpikeCount 1 200
            DEFAULT_ALERT_SETTINGS.rules.staleSpikeCount
        staleWindowDays :=
          clampNumber sourceRules.staleWindowDays 1 30
            DEFAULT_ALERT_SETTINGS.rules.staleWindowDays } }

/-- Re-reading a sanitized `AlertSettings` as an untrusted input (every field
present, numeric fields genuine finite numbers) — used to state idempotency
of the sanitizer. -/
def settingsToInput (s : AlertSettings) : SettingsInput :=
  { enabled := .val s.enabled
    cooldownHours := .fin (s.cooldownHours : ℚ)
    rules := some
      { noCommitDays := .fin (s.rules.noCommitDays : ℚ)
        prStuckDays := .fin (s.rules.prStuckDays : ℚ)
        staleSpikeCount := .fin (s.rules.staleSpikeCount : ℚ)
        staleWindowDays := .fin (s.rules.staleWindowDays : ℚ) } }

lemma jsRound_intCast (n : Int) : jsRound (n : ℚ) = n := by
  unfold jsRound
  rw [Int.floor_eq_iff]
  constructor
  · linarith
  · linarith

lemma clampNumber_bounds (v : NumInput) (lo hi fb : Int)
    (h1 : lo ≤ fb) (h2 : fb ≤ hi) :
    lo ≤ clampNumber v lo hi fb ∧ clampNumber v lo hi fb ≤ hi := by
  cases v <;> simp only [clampNumber] <;> omega

lemma clampNumber_of_mem (c lo hi fb : Int) (h1 : lo ≤ c) (h2 : c ≤ hi) :
    clampNumber (.fin (c : ℚ)) lo hi fb = c := by
  simp only [clampNumber, jsRound_intCast]
  omega

/-- **C3.** For every input object (including null/undefined, partial, or
non-numeric fields) the sanitizer returns settings whose numeric fields lie
in their documented ranges (`cooldownHours ∈ [1,168]`,
`noCommitDays ∈ [1,180]`, `prStuckDays ∈ [1,90]`,
`staleSpikeCount ∈ [1,200]`, `staleWindowDays ∈ [1,30]`); a null input
yields the fixed defaults, an invalid/missing field yields that field's
default, and the sanitizer is idempotent. -/
theorem sanitizeSettings_bounds_defaults_idempotent :
    (∀ input : Option SettingsInput,
      let s := sanitizeSettings input
      (1 ≤ s.cooldownHours ∧ s.cooldownHours ≤ 168) ∧
      (1 ≤ s.rules.noCommitDays ∧ s.rules.noCommitDays ≤ 180) ∧
      (1 ≤ s.rules.prStuckDays ∧ s.rules.prStuckDays ≤ 90) ∧
      (1 ≤ s.rules.staleSpikeCount ∧ s.rules.staleSpikeCount ≤ 200) ∧
      (1 ≤ s.rules.staleWindowDays ∧ s.rules.staleWindowDays ≤ 30)) ∧
    sanitizeSettings none = DEFAULT_ALERT_SETTINGS ∧
    (∀ e r, (sanitizeSettings (some ⟨e, .invalid, r⟩)).cooldownHours = 24) ∧
    (∀ e c, (sanitizeSettings (some ⟨e, c, none⟩)).rules =
      DEFAULT_ALERT_SETTINGS.rules) ∧
    (∀ e c p sp w,
      (sanitizeSettings
        (some ⟨e, c, some ⟨.invalid, p, sp, w⟩⟩)).rules.noCommitDays = 7) ∧
    (∀ e c n sp w,
      (sanitizeSettings
        (some ⟨e, c, some ⟨n, .invalid, sp, w⟩⟩)).rules.prStuckDays = 3) ∧
    (∀ e c n p w,
      (sanitizeSettings
        (some ⟨e, c, some ⟨n, p, .invalid, w⟩⟩)).rules.staleSpikeCount = 5) ∧
    (∀ e c n p sp,
      (sanitizeSettings
        (some ⟨e, c, some ⟨n, p, sp, .invalid⟩⟩)).rules.staleWindowDays = 7) ∧
    (∀ input : Option SettingsInput,
      sanitizeSettings (some (settingsToInput (sanitizeSettings input))) =
        sanitizeSettings input) := by
  have bounds : ∀ input : Option SettingsInput,
      let s := sanitizeSettings input
      (1 ≤ s.cooldownHours ∧ s.cooldownHours ≤ 168) ∧
      (1 ≤ s.rules.noCommitDays ∧ s.rules.noCommitDays ≤ 180) ∧
      (1 ≤ s.rules.prStuckDays ∧ s.rules.prStuckDays ≤ 90) ∧
      (1 ≤ s.rules.staleSpikeCount ∧ s.rules.staleSpikeCount ≤ 200) ∧
      (1 ≤ s.rules.staleWindowDays ∧ s.rules.staleWindowDays ≤ 30) := by
    intro input
    refine ⟨?_, ?_, ?_, ?_, ?_⟩ <;>
      exact clampNumber_bounds _ _ _ _ (by decide) (by decide)
  refine ⟨bounds, by decide, ?_, ?_, ?_, ?_, ?_, ?_, ?_⟩
  · intro e r; rfl
  · intro e c; rfl
  · intro e c p sp w; rfl
  · intro e c n sp w; rfl
  · intro e c n p w; rfl
  · intro e c n p sp; rfl
  · intro input
    obtain ⟨⟨h1, h2⟩, ⟨h3, h4⟩, ⟨h5, h6⟩, ⟨h7, h8⟩, ⟨h9, h10⟩⟩ := bounds input
    show sanitizeSettings (some (settingsToInput (sanitizeSettings input))) =
      sanitizeSettings input
    have hen : (settingsToInput (sanitizeSettings input)).enabled =
        .val (sanitizeSettings input).enabled := rfl
    unfold sanitizeSettings settingsToInput
    simp only [Option.getD_some]
    refine AlertSettings.mk.injEq .. ▸ ?_
    exact ⟨rfl, by
      constructor
      · exact clampNumber_of_mem _ _ _ _ h1 h2
      · refine AlertRules.mk.injEq .. ▸ ⟨?_, ?_, ?_, ?_⟩
        · exact clampNumber_of_mem _ _ _ _ h3 h4
        · exact clampNumber_of_mem _ _ _ _ h5 h6
        · exact clampNumber_of_mem _ _ _ _ h7 h8
        · exact clampNumber_of_mem _ _ _ _ h9 h10⟩

/-! ## Activity streams and the rule evaluator (`evaluateRepoAlerts`) -/

/-- One element of the paginated open-pull-request stream, with the fields
the engine reads. `updatedAt` is the parse result of the `updated_at`
ISO string (`none` when `Date.parse` yields `NaN`). The `draft` flag is part
of the API payload but is never read by `evaluateRepoAlerts`. -/
structure PullRequest where
  number : Int
  title : String
  url : String
  updatedAt : Option Int
  draft : Bool
deriving DecidableEq, Repr

/-- One element of the paginated issue stream: the `pull_request` marker,
the label names, and the parse result of `updated_at`. -/
structure Issue where
  isPullRequest : Bool
  labels : List String
  updatedAt : Option Int
deriving DecidableEq, Repr

/-- `StuckPullRequest` from the source (with `updatedAt` kept as parsed
milliseconds). -/
structure StuckPullRequest where
  number : Int
  title : String
  url : String
  updatedAt : Option Int
  daysSinceUpdate : Int
deriving DecidableEq, Repr

/-- `AlertState` from the source. -/
structure AlertState where
  id : AlertId
  title : String
  severity : AlertSeverity
  active : Bool
  threshold : Int
  value : Option Int
  message : String
deriving DecidableEq, Repr

/-- `config.staleLabel` from `config/default-stale.json`. -/
def staleLabel : String := "stale"

/-- `daysSince` from the source: `Math.floor((now - parsed) / MS_PER_DAY)`,
`null` when the date failed to parse. `Int.fdiv` is floor division. -/
def daysSince (parsed : Option Int) (now : Int) : Option Int :=
  match parsed with
  | none => none
  | some p => some ((now - p).fdiv MS_PER_DAY)

/-- The page loop of the source: up to `maxPages` pages of `per` items,
stopping early at an empty or short page. Equal to taking the first
`maxPages * per` elements of the stream (`paginate_eq_take`). -/
def paginate (l : List α) (maxPages per : Nat) : List α :=
  match maxPages with
  | 0 => []
  | mp + 1 =>
    let page := l.take per
    if page.length < per then page else page ++ paginate (l.drop per) mp per

lemma paginate_eq_take (l : List α) (maxPages per : Nat) :
    paginate l maxPages per = l.take (maxPages * per) := by
  induction maxPages generalizing l with
  | zero => simp [paginate]
  | succ mp ih =>
    simp only [paginate]
    by_cases h : (l.take per).length < per
    · have hlen : l.length ≤ per := by
        rcases Nat.lt_or_ge l.length per with h1 | h1
        · exact Nat.le_of_lt h1
        · exact absurd (by simpa [List.length_take] using h) (by omega)
      simp only [if_pos h]
      rw [List.take_of_length_le hlen, List.take_of_length_le
        (le_trans hlen (by calc per = 1 * per := (one_mul per).symm
                          _ ≤ (mp + 1) * per := Nat.mul_le_mul_right per (by omega)))]
    · simp only [if_neg h, ih]
      rw [Nat.succ_mul, Nat.add_comm (mp * per) per, List.take_add]

/-- The body of the open-PR loop for a single pull request: `null`/short
idle ages are skipped, otherwise a `StuckPullRequest` sample is built. -/
def stuckOf (now prStuckDays : Int) (pr : PullRequest) : Option StuckPullRequest :=
  match daysSince pr.updatedAt now with
  | none => none
  | some staleDays =>
    if staleDays < prStuckDays then none
    else some
      { number := pr.number
        title := pr.title
        url := pr.url
        updatedAt := pr.updatedAt
        daysSinceUpdate := staleDays }

/-- Stable insertion step for descending `daysSinceUpdate` order. -/
def insertByIdleDesc (x : StuckPullRequest) :
    List StuckPullRequest → List StuckPullRequest
  | [] => [x]
  | y :: ys =>
    if x.daysSinceUpdate < y.daysSinceUpdate then y :: insertByIdleDesc x ys
    else x :: y :: ys

/-- `stuckPullRequests.sort((a, b) => b.daysSinceUpdate - a.daysSinceUpdate)`:
JavaScript `Array.prototype.sort` is required to be stable, so its output is
the unique descending-by-idle-days ordering that preserves the original
relative order of ties; this stable insertion sort produces exactly that
ordering. -/
def sortByIdleDesc (l : List StuckPullRequest) : List StuckPullRequest :=
  l.foldr insertByIdleDesc []

lemma length_insertByIdleDesc (x : StuckPullRequest) (l : List StuckPullRequest) :
    (insertByIdleDesc x l).length = l.length + 1 := by
  induction l with
  | nil => rfl
  | cons y ys ih =>
    simp only [insertByIdleDesc]
    by_cases h : x.daysSinceUpdate < y.daysSinceUpdate
    · simp [h, ih]
    · simp [h]

lemma length_sortByIdleDesc (l : List StuckPullRequest) :
    (sortByIdleDesc l).length = l.length := by
  induction l with
  | nil => rfl
  | cons y ys ih =>
    show (insertByIdleDesc y (sortByIdleDesc ys)).length = ys.length + 1
    rw [length_insertByIdleDesc, ih]

/-- The stale-issue window loop: one pass over the scanned issues,
counting stale-labeled non-PR issues whose parsed `updated_at` falls in the
current window (`curStart ≤ ms`) or in the previous window
(`prevStart ≤ ms < curStart`). -/
def staleWindowCounts (curStart prevStart : Int) :
    List Issue → Nat × Nat
  | [] => (0, 0)
  | issue :: rest =>
    let acc := staleWindowCounts curStart prevStart rest
    if issue.isPullRequest then acc
    else if !(issue.labels.contains staleLabel) then acc
    else
      match issue.updatedAt with
      | none => acc
      | some ms =>
        if curStart ≤ ms then (acc.1 + 1, acc.2)
        else if prevStart ≤ ms then (acc.1, acc.2 + 1)
        else acc

/-- The `NO_COMMITS` entry of the `alerts` array. -/
def noCommitsState (settings : AlertSettings) (daysSinceLastCommit : Option Int) :
    AlertState :=
  { id := .NO_COMMITS
    title := "No Recent Commits"
    severity := .HIGH
    active :=
      match daysSinceLastCommit with
      | none => true
      | some d => decide (settings.rules.noCommitDays ≤ d)
    threshold := settings.rules.noCommitDays
    value := daysSinceLastCommit
    message :=
      match daysSinceLastCommit with
      | none => "No commits were found in repository history."
      | some d =>
        "Last commit was " ++ toString d ++ " day(s) ago (threshold " ++
          toString settings.rules.noCommitDays ++ "d)." }

/-- The `PR_STUCK` entry of the `alerts` array. -/
def prStuckState (settings : AlertSettings) (stuckPrCount : Nat) : AlertState :=
  { id := .PR_STUCK
    title := "Stuck Pull Requests"
    severity := .MEDIUM
    active := decide (0 < stuckPrCount)
    threshold := settings.rules.prStuckDays
    value := some (stuckPrCount : Int)
    message :=
      if 0 < stuckPrCount then
        toString stuckPrCount ++ " open PR(s) have no updates for at least " ++
          toString settings.rules.prStuckDays ++ " day(s)."
      else
        "No open PR has been idle for " ++
          toString settings.rules.prStuckDays ++ "+ day(s)." }

/-- The `STALE_SPIKE` entry of the `alerts` array. -/
def staleSpikeState (settings : AlertSettings)
    (staleCurrentWindow stalePreviousWindow : Nat) : AlertState :=
  let staleSpikeActive :=
    decide (settings.rules.staleSpikeCount ≤ (staleCurrentWindow : Int)) &&
      decide (stalePreviousWindow < staleCurrentWindow)
  { id := .STALE_SPIKE
    title := "Stale Spike"
    severity := .MEDIUM
    active := staleSpikeActive
    threshold := settings.rules.staleSpikeCount
    value := some (staleCurrentWindow : Int)
    message :=
      if staleSpikeActive then
        toString staleCurrentWindow ++ " stale-labeled issue(s) updated in last " ++
          toString settings.rules.staleWindowDays ++ " day(s), up from " ++
          toString stalePreviousWindow ++ "."
      else
        "Stale update volume (" ++ toString staleCurrentWindow ++
          ") is below spike threshold (" ++ toString settings.rules.staleSpikeCount ++
          ") or not above previous window (" ++ toString stalePreviousWindow ++ ")." }

/-- The `metrics` record of an evaluation. -/
structure EvalMetrics where
  lastCommitAt : Option (Option Int)
  daysSinceLastCommit : Option Int
  totalOpenPrs : Nat
  stuckPrs : Nat
  staleCurrentWindow : Nat
  stalePreviousWindow : Nat
  staleOpenNow : Option Int
deriving DecidableEq, Repr

/-- `AlertEvaluation` from the source. -/
structure AlertEvaluation where
  repo : String
  generatedAt : String
  settings : AlertSettings
  alerts : List AlertState
  activeAlerts : List AlertState
  metrics : EvalMetrics
  stuckSamples : List StuckPullRequest
deriving DecidableEq, Repr

/-- `evaluateRepoAlerts` from the source, with the GitHub streams supplied
as arguments: `lastCommitAt` is the (optional) parse result of the latest
commit date (`none` when the repository has no commit or the commit carries
no date), `prs` is the open-PR stream in the API's oldest-updated-first
order, `issues` the issue stream, and `staleOpenNow` the result of the
open-stale search (`none` when that non-fatal lookup failed).
`isoDaysAgo (2 * staleWindowDays)` moves a UTC clock back exactly
`2 * staleWindowDays * MS_PER_DAY` milliseconds, so the previous-window
start is written in that closed form. -/
def evaluateRepoAlerts (repo generatedAt : String) (settings : AlertSettings)
    (now : Int) (lastCommitAt : Option (Option Int)) (prs : List PullRequest)
    (issues : List Issue) (staleOpenNow : Option Int) : AlertEvaluation :=
  let daysSinceLastCommit :=
    match lastCommitAt with
    | none => none
    | some parsed => daysSince parsed now
  let scannedPrs := paginate prs MAX_OPEN_PR_PAGES PER_PAGE
  let stuckPullRequests :=
    sortByIdleDesc (scannedPrs.filterMap (stuckOf now settings.rules.prStuckDays))
  let stuckPrCount := stuckPullRequests.length
  let currentWindowStartMs := now - settings.rules.staleWindowDays * MS_PER_DAY
  let previousWindowStartMs := now - 2 * settings.rules.staleWindowDays * MS_PER_DAY
  let staleCounts := staleWindowCounts currentWindowStartMs previousWindowStartMs
    (paginate issues MAX_STALE_SCAN_PAGES PER_PAGE)
  let alerts : List AlertState :=
    [noCommitsState settings daysSinceLastCommit,
     prStuckState settings stuckPrCount,
     staleSpikeState settings staleCounts.1 staleCounts.2]
  { repo := repo
    generatedAt := generatedAt
    settings := settings
    alerts := alerts
    activeAlerts := alerts.filter (·.active)
    metrics :=
      { lastCommitAt := lastCommitAt
        daysSinceLastCommit := daysSinceLastCommit
        totalOpenPrs := scannedPrs.length
        stuckPrs := stuckPrCount
        staleCurrentWindow := staleCounts.1
        stalePreviousWindow := staleCounts.2
        staleOpenNow := staleOpenNow }
    stuckSamples := stuckPullRequests.take 8 }

/-! ## Claims C4, C5, C2 — the three rule activations -/

/-- **C4.** In every evaluation the `NO_COMMITS` alert (the first entry of
the alerts array) is active iff `daysSinceLastCommit` is null or at least
`noCommitDays`; with `noCommitDays = 7` a last commit 6 days ago is
inactive, 7 days ago is active, and a repository with no commit is active. -/
theorem no_commits_active_iff :
    (∀ (repo gen : String) (settings : AlertSettings) (now : Int)
        (lastCommitAt : Option (Option Int)) (prs : List PullRequest)
        (issues : List Issue) (staleOpenNow : Option Int),
      let ev := evaluateRepoAlerts repo gen settings now lastCommitAt prs issues
        staleOpenNow
      ev.alerts.head? =
        some (noCommitsState settings ev.metrics.daysSinceLastCommit) ∧
      ((noCommitsState settings ev.metrics.daysSinceLastCommit).active = true ↔
        ev.metrics.daysSinceLastCommit = none ∨
        ∃ d, ev.metrics.daysSinceLastCommit = some d ∧
          settings.rules.noCommitDays ≤ d)) ∧
    (let ev6 := evaluateRepoAlerts "o/r" "t" DEFAULT_ALERT_SETTINGS
        (200 * MS_PER_DAY) (some (some (194 * MS_PER_DAY))) [] [] none
     ev6.metrics.daysSinceLastCommit = some 6 ∧
     ev6.alerts.head?.map (·.active) = some false) ∧
    (let ev7 := evaluateRepoAlerts "o/r" "t" DEFAULT_ALERT_SETTINGS
        (200 * MS_PER_DAY) (some (some (193 * MS_PER_DAY))) [] [] none
     ev7.metrics.daysSinceLastCommit = some 7 ∧
     ev7.alerts.head?.map (·.active) = some true) ∧
    (let evNone := evaluateRepoAlerts "o/r" "t" DEFAULT_ALERT_SETTINGS
        (200 * MS_PER_DAY) none [] [] none
     evNone.metrics.daysSinceLastCommit = none ∧
     evNone.alerts.head?.map (·.active) = some true) := by
  refine ⟨?_, by decide, by decide, by decide⟩
  intro repo gen settings now lastCommitAt prs issues staleOpenNow
  refine ⟨rfl, ?_⟩
  rcases (evaluateRepoAlerts repo gen settings now lastCommitAt prs issues
      staleOpenNow).metrics.daysSinceLastCommit with _ | d
  · simp [noCommitsState]
  · simp [noCommitsState]

/-- **C5.** In every evaluation the `STALE_SPIKE` alert (the third entry of
the alerts array) is active iff `staleCurrentWindow ≥ staleSpikeCount` and
`staleCurrentWindow > stalePreviousWindow`; with threshold 5:
current 5 / previous 5 is inactive, current 6 / previous 5 is active,
current 4 / previous 1 is inactive. -/
theorem stale_spike_active_iff :
    (∀ (repo gen : String) (settings : AlertSettings) (now : Int)
        (lastCommitAt : Option (Option Int)) (prs : List PullRequest)
        (issues : List Issue) (staleOpenNow : Option Int),
      let ev := evaluateRepoAlerts repo gen settings now lastCommitAt prs issues
        staleOpenNow
      ev.alerts.drop 2 =
        [staleSpikeState settings ev.metrics.staleCurrentWindow
          ev.metrics.stalePreviousWindow] ∧
      ((staleSpikeState settings ev.metrics.staleCurrentWindow
          ev.metrics.stalePreviousWindow).active = true ↔
        settings.rules.staleSpikeCount ≤ (ev.metrics.staleCurrentWindow : Int) ∧
        ev.metrics.stalePreviousWindow < ev.metrics.staleCurrentWindow)) ∧
    (let ev55 := evaluateRepoAlerts "o/r" "t" DEFAULT_ALERT_SETTINGS
        (200 * MS_PER_DAY) none []
        (List.replicate 5 ⟨false, ["stale"], some (199 * MS_PER_DAY)⟩ ++
         List.replicate 5 ⟨false, ["stale"], some (190 * MS_PER_DAY)⟩) none
     ev55.metrics.staleCurrentWindow = 5 ∧ ev55.metrics.stalePreviousWindow = 5 ∧
     (ev55.alerts.drop 2).head?.map (·.active) = some false) ∧
    (let ev65 := evaluateRepoAlerts "o/r" "t" DEFAULT_ALERT_SETTINGS
        (200 * MS_PER_DAY) none []
        (List.replicate 6 ⟨false, ["stale"], some (199 * MS_PER_DAY)⟩ ++
         List.replicate 5 ⟨false, ["stale"], some (190 * MS_PER_DAY)⟩) none
     ev65.metrics.staleCurrentWindow = 6 ∧ ev65.metrics.stalePreviousWindow = 5 ∧
     (ev65.alerts.drop 2).head?.map (·.active) = some true) ∧
    (let ev41 := evaluateRepoAlerts "o/r" "t" DEFAULT_ALERT_SETTINGS
        (200 * MS_PER_DAY) none []
        (List.replicate 4 ⟨false, ["stale"], some (199 * MS_PER_DAY)⟩ ++
         List.replicate 1 ⟨false, ["stale"], some (190 * MS_PER_DAY)⟩) none
     ev41.metrics.staleCurrentWindow = 4 ∧ ev41.metrics.stalePreviousWindow = 1 ∧
     (ev41.alerts.drop 2).head?.map (·.active) = some false) := by
  refine ⟨?_, by decide, by decide, by decide⟩
  intro repo gen settings now lastCommitAt prs issues staleOpenNow
  refine ⟨rfl, ?_⟩
  simp [staleSpikeState]

/-- The idle-days test the specification describes for a stuck pull request:
its `updated_at` parses and the floor of its age in days is at least the
threshold. -/
def idleDaysAtLeast (now t : Int) (pr : PullRequest) : Bool :=
  match daysSince pr.updatedAt now with
  | none => false
  | some d => decide (t ≤ d)

/-- Modelled from the spec glossary: "an open, **non-draft** pull request
with no update for at least the configured threshold of days" — the count
claim C2 asserts the engine reports. The engine itself never reads the
`draft` flag. -/
def specNonDraftStuckCount (now t : Int) (prs : List PullRequest) : Nat :=
  prs.countP (fun pr => !pr.draft && idleDaysAtLeast now t pr)

lemma length_filterMap_stuckOf (now t : Int) (l : List PullRequest) :
    (l.filterMap (stuckOf now t)).length = l.countP (idleDaysAtLeast now t) := by
  induction l with
  | nil => rfl
  | cons pr rest ih =>
    rw [List.filterMap_cons, List.countP_cons]
    rcases hpd : pr.updatedAt with _ | p
    · have h1 : stuckOf now t pr = none := by simp [stuckOf, daysSince, hpd]
      have h2 : idleDaysAtLeast now t pr = false := by
        simp [idleDaysAtLeast, daysSince, hpd]
      simp [h1, h2, ih]
    · by_cases hd : (now - p).fdiv MS_PER_DAY < t
      · have h1 : stuckOf now t pr = none := by
          simp [stuckOf, daysSince, hpd, hd]
        have h2 : idleDaysAtLeast now t pr = false := by
          simp [idleDaysAtLeast, daysSince, hpd]
          omega
        simp [h1, h2, ih]
      · have h1 : ∃ s, stuckOf now t pr = some s := by
          simp [stuckOf, daysSince, hpd, hd]
        have h2 : idleDaysAtLeast now t pr = true := by
          simp [idleDaysAtLeast, daysSince, hpd]
          omega
        obtain ⟨s, hs⟩ := h1
        simp [hs, h2, ih]

/-- **C2 (counterexample).** The claim counts only non-draft pull requests,
but the engine never reads the `draft` flag: a single *draft* PR idle 5 days
against threshold 3 gives an observed `PR_STUCK` value of 1 while the
spec's non-draft count is 0. -/
theorem pr_stuck_draft_counterexample :
    let prs : List PullRequest :=
      [⟨3, "p3", "u3", some (195 * MS_PER_DAY), true⟩]
    let ev := evaluateRepoAlerts "o/r" "t" DEFAULT_ALERT_SETTINGS
      (200 * MS_PER_DAY) none prs [] none
    ev.metrics.stuckPrs = 1 ∧
    (ev.alerts.drop 1).head? = some (prStuckState DEFAULT_ALERT_SETTINGS 1) ∧
    specNonDraftStuckCount (200 * MS_PER_DAY) 3 prs = 0 ∧
    ¬ ev.metrics.stuckPrs =
        specNonDraftStuckCount (200 * MS_PER_DAY) 3 prs := by
  refine ⟨by decide, by decide, by decide, by decide⟩

/-- **C2 (amended).** For repositories within the scan cap (at most
`MAX_OPEN_PR_PAGES * PER_PAGE = 500` open PRs), the `PR_STUCK` observed
value equals the number of open pull requests — draft or not — whose idle
time in whole days is at least `prStuckDays`, and the rule is active iff
that count is positive (threshold 3 with PRs idle {1,3,5} days gives 2,
see the witness). -/
theorem pr_stuck_count_amended (repo gen : String) (settings : AlertSettings)
    (now : Int) (lastCommitAt : Option (Option Int)) (prs : List PullRequest)
    (issues : List Issue) (staleOpenNow : Option Int)
    (hlen : prs.length ≤ MAX_OPEN_PR_PAGES * PER_PAGE) :
    let ev := evaluateRepoAlerts repo gen settings now lastCommitAt prs issues
      staleOpenNow
    ev.metrics.stuckPrs =
      prs.countP (idleDaysAtLeast now settings.rules.prStuckDays) ∧
    (ev.alerts.drop 1).head? = some (prStuckState settings ev.metrics.stuckPrs) ∧
    ((prStuckState settings ev.metrics.stuckPrs).active = true ↔
      0 < ev.metrics.stuckPrs) ∧
    (prStuckState settings ev.metrics.stuckPrs).value =
      some (ev.metrics.stuckPrs : Int) := by
  intro ev
  have hcount : ev.metrics.stuckPrs =
      prs.countP (idleDaysAtLeast now settings.rules.prStuckDays) := by
    show (sortByIdleDesc ((paginate prs MAX_OPEN_PR_PAGES PER_PAGE).filterMap
        (stuckOf now settings.rules.prStuckDays))).length = _
    rw [length_sortByIdleDesc, paginate_eq_take, List.take_of_length_le hlen,
      length_filterMap_stuckOf]
  refine ⟨hcount, rfl, ?_, rfl⟩
  simp [prStuckState]

/-- **C2 (witness).** The amended theorem applied to threshold 3 and three
open PRs idle 1, 3 and 5 days: the observed value is 2. -/
theorem pr_stuck_count_amended_witness :
    (evaluateRepoAlerts "o/r" "t" DEFAULT_ALERT_SETTINGS (200 * MS_PER_DAY) none
      [⟨1, "p1", "u1", some (199 * MS_PER_DAY), false⟩,
       ⟨2, "p2", "u2", some (197 * MS_PER_DAY), false⟩,
       ⟨3, "p3", "u3", some (195 * MS_PER_DAY), false⟩] [] none).metrics.stuckPrs =
      [⟨1, "p1", "u1", some (199 * MS_PER_DAY), false⟩,
       ⟨2, "p2", "u2", some (197 * MS_PER_DAY), false⟩,
       (⟨3, "p3", "u3", some (195 * MS_PER_DAY), false⟩ : PullRequest)].countP
        (idleDaysAtLeast (200 * MS_PER_DAY) 3) ∧
    ([⟨1, "p1", "u1", some (199 * MS_PER_DAY), false⟩,
      ⟨2, "p2", "u2", some (197 * MS_PER_DAY), false⟩,
      (⟨3, "p3", "u3", some (195 * MS_PER_DAY), false⟩ : PullRequest)].countP
        (idleDaysAtLeast (200 * MS_PER_DAY) 3) = 2) :=
  ⟨(pr_stuck_count_amended "o/r" "t" DEFAULT_ALERT_SETTINGS (200 * MS_PER_DAY)
      none _ [] none (by decide)).1, by decide⟩

/-! ## Delivery-target resolution (claim C6) -/

/-- The three optional endpoint URLs from the process environment
(`src/lib/env.ts`); blank values are already turned into `undefined` by the
env schema, so `none` means "not configured". Field order follows
`env.ts`. -/
structure EnvConfig where
  ALERT_WEBHOOK_URL : Option String
  ALERT_SLACK_WEBHOOK_URL : Option String
  ALERT_DISCORD_WEBHOOK_URL : Option String
deriving DecidableEq, Repr

/-- `Exclude<AlertChannel, 'auto'>`. -/
inductive TargetKind where
  | webhook
  | slack
  | discord
deriving DecidableEq, Repr

/-- `DeliveryTarget` from the source. -/
structure DeliveryTarget where
  kind : TargetKind
  url : String
deriving DecidableEq, Repr

/-- `resolveDeliveryTarget` from the source: the sequential `if` chain —
each explicit channel matches only its own configured endpoint; `auto`
tries the generic webhook, then slack, then discord; everything else falls
through to `null`. -/
def resolveDeliveryTarget (envc : EnvConfig) (channel : AlertChannel) :
    Option DeliveryTarget :=
  match channel with
  | .slack => envc.ALERT_SLACK_WEBHOOK_URL.map (fun u => ⟨.slack, u⟩)
  | .discord => envc.ALERT_DISCORD_WEBHOOK_URL.map (fun u => ⟨.discord, u⟩)
  | .webhook => envc.ALERT_WEBHOOK_URL.map (fun u => ⟨.webhook, u⟩)
  | .auto =>
    match envc.ALERT_WEBHOOK_URL with
    | some u => some ⟨.webhook, u⟩
    | none =>
      match envc.ALERT_SLACK_WEBHOOK_URL with
      | some u => some ⟨.slack, u⟩
      | none => envc.ALERT_DISCORD_WEBHOOK_URL.map (fun u => ⟨.discord, u⟩)

/-- `isAlertWebhookConfigured` from the source. -/
def isAlertWebhookConfigured (envc : EnvConfig) : Bool :=
  (resolveDeliveryTarget envc .auto).isSome

/-- **C6.** `auto` resolution follows the fixed priority generic webhook →
slack → discord (first configured wins, so discord-only resolves to
discord); an explicit channel resolves to exactly its own endpoint
(`none` when unconfigured, whatever else is configured); with nothing
configured every channel resolves to `none`. -/
theorem resolve_delivery_target_spec :
    (∀ (envc : EnvConfig) (u : String), envc.ALERT_WEBHOOK_URL = some u →
      resolveDeliveryTarget envc .auto = some ⟨.webhook, u⟩) ∧
    (∀ (envc : EnvConfig) (u : String), envc.ALERT_WEBHOOK_URL = none →
      envc.ALERT_SLACK_WEBHOOK_URL = some u →
      resolveDeliveryTarget envc .auto = some ⟨.slack, u⟩) ∧
    (∀ (envc : EnvConfig) (u : String), envc.ALERT_WEBHOOK_URL = none →
      envc.ALERT_SLACK_WEBHOOK_URL = none →
      envc.ALERT_DISCORD_WEBHOOK_URL = some u →
      resolveDeliveryTarget envc .auto = some ⟨.discord, u⟩) ∧
    (∀ envc : EnvConfig, resolveDeliveryTarget envc .webhook =
      envc.ALERT_WEBHOOK_URL.map (fun u => ⟨.webhook, u⟩)) ∧
    (∀ envc : EnvConfig, resolveDeliveryTarget envc .slack =
      envc.ALERT_SLACK_WEBHOOK_URL.map (fun u => ⟨.slack, u⟩)) ∧
    (∀ envc : EnvConfig, resolveDeliveryTarget envc .discord =
      envc.ALERT_DISCORD_WEBHOOK_URL.map (fun u => ⟨.discord, u⟩)) ∧
    (∀ channel : AlertChannel,
      resolveDeliveryTarget ⟨none, none, none⟩ channel = none) := by
  refine ⟨?_, ?_, ?_, fun _ => rfl, fun _ => rfl, fun _ => rfl, ?_⟩
  · rintro ⟨w, s, d⟩ u h
    cases h
    rfl
  · rintro ⟨w, s, d⟩ u h1 h2
    cases h1
    cases h2
    rfl
  · rintro ⟨w, s, d⟩ u h1 h2 h3
    cases h1
    cases h2
    cases h3
    rfl
  · rintro (_ | _ | _ | _) <;> rfl

/-- **C6 (witness).** With only the discord endpoint configured, `auto`
resolves to discord; with nothing configured, `auto` resolves to `none`. -/
theorem resolve_delivery_target_witness :
    resolveDeliveryTarget ⟨none, none, some "https://d.example/hook"⟩ .auto =
      some ⟨.discord, "https://d.example/hook"⟩ ∧
    resolveDeliveryTarget ⟨none, none, none⟩ .auto = none :=
  ⟨resolve_delivery_target_spec.2.2.1 ⟨none, none, some "https://d.example/hook"⟩
      "https://d.example/hook" rfl rfl rfl,
    resolve_delivery_target_spec.2.2.2.2.2.2 .auto⟩

/-! ## Payload formatting (claim C9) -/

/-- `severityPriority` from the source. -/
def severityPriority (severity : AlertSeverity) : Nat :=
  match severity with
  | .HIGH => 3
  | .MEDIUM => 2
  | .LOW => 1

/-- `highestSeverity` from the source (a left fold starting from `LOW`). -/
def highestSeverity (alerts : List AlertState) : AlertSeverity :=
  alerts.foldl
    (fun current alert =>
      if severityPriority current < severityPriority alert.severity then
        alert.severity
      else current)
    .LOW

/-- `severityColorHex` from the source. -/
def severityColorHex (severity : AlertSeverity) : Nat :=
  match severity with
  | .HIGH => 0xb91c1c
  | .MEDIUM => 0xd97706
  | .LOW => 0x047857

/-- `severityEmoji` from the source. -/
def severityEmoji (severity : AlertSeverity) : String :=
  match severity with
  | .HIGH => "🔴"
  | .MEDIUM => "🟠"
  | .LOW => "🟢"

/-- The name of a severity as interpolated into the plain-text digest. -/
def severityLabel (severity : AlertSeverity) : String :=
  match severity with
  | .HIGH => "HIGH"
  | .MEDIUM => "MEDIUM"
  | .LOW => "LOW"

/-- `truncateText` from the source:
`value.length <= max ? value : value.slice(0, Math.max(0, max - 1)) + '…'`
(`slice` written through `String.mk` on the character list; `Nat`
subtraction already truncates at zero like `Math.max(0, max - 1)`). -/
def truncateText (value : String) (max : Nat) : String :=
  if value.length ≤ max then value
  else String.mk (value.data.take (max - 1) ++ ['…'])

/-- `buildWebhookMessage` from the source (the plain-text digest). -/
def buildWebhookMessage (evaluation : AlertEvaluation)
    (alertsToSend : List AlertState) : String :=
  String.intercalate "\n"
    (["Repo Doctor Alert: " ++ evaluation.repo,
      toString alertsToSend.length ++ " active rule" ++
        (if alertsToSend.length = 1 then "" else "s") ++ " triggered",
      ""] ++
     (alertsToSend.map (fun alert =>
        ["[" ++ severityLabel alert.severity ++ "] " ++ alert.title,
         "- " ++ alert.message])).flatten ++
     ["",
      "Generated at: " ++ evaluation.generatedAt,
      "Open stale issues: " ++
        (match evaluation.metrics.staleOpenNow with
         | some n => toString n
         | none => "N/A")])

/-- One line of the top-stuck-PR preview:
``• [#number](url) - truncateText(title, 72) (Nd idle)``. -/
def stuckEntry (pr : StuckPullRequest) : String :=
  "• [#" ++ toString pr.number ++ "](" ++ pr.url ++ ") - " ++
    truncateText pr.title 72 ++ " (" ++ toString pr.daysSinceUpdate ++ "d idle)"

/-- The rich (discord) payload, flattened to the fields the engine writes:
the single embed's text fields are inlined. `topStuck` is the value of the
optional "Top Stuck PRs" field (absent when the preview string is empty). -/
structure DiscordPayload where
  username : String
  content : String
  embedTitle : String
  embedUrl : String
  description : String
  color : Nat
  commitActivity : String
  pullRequests : String
  staleTrend : String
  ruleThresholds : String
  topStuck : Option String
  footerText : String
  timestamp : String
deriving DecidableEq, Repr

/-- `buildDiscordPayload` from the source. -/
def buildDiscordPayload (evaluation : AlertEvaluation)
    (alertsToSend : List AlertState) : DiscordPayload :=
  let dominantSeverity := highestSeverity alertsToSend
  let repoUrl := "https://github.com/" ++ evaluation.repo
  let triggeredList := String.intercalate "\n\n"
    (alertsToSend.map (fun alert =>
      severityEmoji alert.severity ++ " **" ++ alert.title ++ "**\n" ++
        alert.message))
  let stuckPreview := String.intercalate "\n"
    ((evaluation.stuckSamples.take 3).map stuckEntry)
  let staleNow :=
    match evaluation.metrics.staleOpenNow with
    | some n => toString n
    | none => "N/A"
  let noCommitThreshold := evaluation.settings.rules.noCommitDays
  let prStuckThreshold := evaluation.settings.rules.prStuckDays
  let staleThreshold := evaluation.settings.rules.staleSpikeCount
  let staleWindow := evaluation.settings.rules.staleWindowDays
  { username := "Repo Doctor"
    content := "🚨 **Repo health alert triggered for `" ++ evaluation.repo ++ "`**"
    embedTitle := toString alertsToSend.length ++ " active alert" ++
      (if alertsToSend.length = 1 then "" else "s") ++ " detected"
    embedUrl := repoUrl
    description := truncateText triggeredList 3900
    color := severityColorHex dominantSeverity
    commitActivity :=
      match evaluation.metrics.daysSinceLastCommit with
      | none => "No commit found (threshold " ++ toString noCommitThreshold ++ "d)"
      | some d => "Last commit: **" ++ toString d ++ "d** ago (threshold " ++
          toString noCommitThreshold ++ "d)"
    pullRequests := "Open: **" ++ toString evaluation.metrics.totalOpenPrs ++
      "**\nStuck: **" ++ toString evaluation.metrics.stuckPrs ++
      "** (threshold " ++ toString prStuckThreshold ++ "d)"
    staleTrend := "Current: **" ++ toString evaluation.metrics.staleCurrentWindow ++
      "**\nPrevious: **" ++ toString evaluation.metrics.stalePreviousWindow ++
      "**\nOpen stale: **" ++ staleNow ++ "**"
    ruleThresholds := "No commits: " ++ toString noCommitThreshold ++
      "d\nPR stuck: " ++ toString prStuckThreshold ++ "d\nStale spike: " ++
      toString staleThreshold ++ " in " ++ toString staleWindow ++ "d"
    topStuck :=
      if stuckPreview = "" then none else some (truncateText stuckPreview 1000)
    footerText := "Repo Doctor · Smart Alerts"
    timestamp := evaluation.generatedAt }

lemma truncateText_length_le (s : String) (max : Nat) (h : 1 ≤ max) :
    (truncateText s max).length ≤ max := by
  unfold truncateText
  by_cases hle : s.length ≤ max
  · simp only [if_pos hle]
    exact hle
  · rw [if_neg hle]
    show (s.data.take (max - 1) ++ ['…']).length ≤ max
    rw [List.length_append, List.length_take]
    simp only [List.length_singleton]
    omega

/-! ## Cooldown and dispatch (claims C1, C7, C8, C10) -/

/-- `DeliveryEvent` from the source (`sentAt` in milliseconds). -/
structure DeliveryEvent where
  repo : String
  ruleId : AlertId
  severity : AlertSeverity
  sentAt : Int
  channel : TargetKind
  force : Bool
deriving DecidableEq, Repr

/-- Maximum of a list of timestamps, `0` when the list is empty. -/
def maxOr0 : List Int → Int
  | [] => 0
  | [t] => t
  | t :: u :: rest => max t (maxOr0 (u :: rest))

/-- The cooldown lookup:
`deliveries.findOne({repo, ruleId}, {sort: {sentAt: -1}})` followed by
`lastSent?.sentAt ? new Date(lastSent.sentAt).getTime() : 0` — the largest
`sentAt` among the events of the (repo, rule) pair, `0` when there is none.
(A stored epoch timestamp also yields `0`, which the subsequent
`if (lastSentMs && …)` truthiness test cannot tell apart from "never
sent".) -/
def lastSentMs (state : List DeliveryEvent) (repo : String) (ruleId : AlertId) :
    Int :=
  maxOr0 ((state.filter
    (fun e => decide (e.repo = repo ∧ e.ruleId = ruleId))).map (fun e => e.sentAt))

/-- The two exceptions `dispatchRepoAlerts` can throw: the missing-webhook
configuration error, and the error `sendWebhook` throws on a non-success
transport response. -/
inductive DispatchError where
  | configError
  | transportFailed
deriving DecidableEq, Repr

/-- Decidable equality for thrown-or-returned dispatch outcomes. -/
instance instDecEqExcept {ε α : Type} [DecidableEq ε] [DecidableEq α] :
    DecidableEq (Except ε α) := fun a b =>
  match a, b with
  | .ok x, .ok y =>
    match decEq x y with
    | isTrue h => isTrue (h ▸ rfl)
    | isFalse h => isFalse (fun hc => h (Except.ok.inj hc))
  | .error x, .error y =>
    match decEq x y with
    | isTrue h => isTrue (h ▸ rfl)
    | isFalse h => isFalse (fun hc => h (Except.error.inj hc))
  | .ok _, .error _ => isFalse (fun hc => Except.noConfusion hc)
  | .error _, .ok _ => isFalse (fun hc => Except.noConfusion hc)

/-- The result object of `dispatchRepoAlerts` (without the embedded
evaluation, which is the `evaluation` value itself). -/
structure DispatchResult where
  sent : Bool
  reason : String
  suppressed : List AlertId
  sentAlerts : List AlertId
  channelUsed : Option TargetKind
  sentAtMs : Option Int
deriving DecidableEq, Repr

/-- The per-rule cooldown loop of `dispatchRepoAlerts`: splits the active
alerts into the `sendable` list and the `suppressed` id list. A forced call
sends everything; otherwise a rule is suppressed exactly when its last-sent
lookup is truthy (non-zero) and younger than the cooldown window. -/
def classifyAlerts (state : List DeliveryEvent) (repo : String)
    (now cooldownMs : Int) (force : Bool) :
    List AlertState → List AlertState × List AlertId
  | [] => ([], [])
  | alert :: rest =>
    let acc := classifyAlerts state repo now cooldownMs force rest
    if force then (alert :: acc.1, acc.2)
    else
      let lastMs := lastSentMs state repo alert.id
      if lastMs ≠ 0 ∧ now - lastMs < cooldownMs then (acc.1, alert.id :: acc.2)
      else (alert :: acc.1, acc.2)

/-- `dispatchRepoAlerts` from the source, as a function of the same
collector inputs as `evaluateRepoAlerts` plus the delivery-history state.
Returns the thrown error or the result object, together with the
delivery-history state after the call (events are appended only on the
success path, after the transport send). -/
def dispatchRepoAlerts (envc : EnvConfig) (transportOk : Bool)
    (repo gen : String) (settings : AlertSettings) (force : Bool)
    (channel : AlertChannel) (now : Int) (lastCommitAt : Option (Option Int))
    (prs : List PullRequest) (issues : List Issue) (staleOpenNow : Option Int)
    (state : List DeliveryEvent) :
    Except DispatchError DispatchResult × List DeliveryEvent :=
  let evaluation := evaluateRepoAlerts repo gen settings now lastCommitAt prs
    issues staleOpenNow
  if !settings.enabled && !force then
    (.ok ⟨false, "Alerts are disabled for this repository.", [], [], none, none⟩,
      state)
  else if evaluation.activeAlerts.length = 0 then
    (.ok ⟨false, "No active alerts to send.", [], [], none, none⟩, state)
  else
    match resolveDeliveryTarget envc channel with
    | none => (.error .configError, state)
    | some target =>
      let cooldownMs := settings.cooldownHours * 3600000
      let classified := classifyAlerts state repo now cooldownMs force
        evaluation.activeAlerts
      if classified.1.length = 0 then
        (.ok ⟨false, "All active alerts are in cooldown.", classified.2, [],
          none, none⟩, state)
      else if !transportOk then
        (.error .transportFailed, state)
      else
        (.ok ⟨true, "", classified.2, classified.1.map (·.id), some target.kind,
            some now⟩,
          state ++ classified.1.map (fun alert =>
            ⟨repo, alert.id, alert.severity, now, target.kind, force⟩))

lemma mem_le_maxOr0 {x : Int} : ∀ {l : List Int}, x ∈ l → x ≤ maxOr0 l
  | [t], h => by
    rcases List.mem_singleton.mp h with rfl
    exact le_refl _
  | t :: u :: rest, h => by
    rcases List.mem_cons.mp h with rfl | h2
    · exact le_max_left _ _
    · exact le_trans (mem_le_maxOr0 h2) (le_max_right _ _)

lemma sentAt_le_lastSentMs {state : List DeliveryEvent} {e : DeliveryEvent}
    (he : e ∈ state) (hr : e.repo = repo) (hid : e.ruleId = rid) :
    e.sentAt ≤ lastSentMs state repo rid := by
  refine mem_le_maxOr0 ?_
  exact List.mem_map_of_mem _
    (List.mem_filter.mpr ⟨he, by simp [hr, hid]⟩)

lemma classifyAlerts_force (state : List DeliveryEvent) (repo : String)
    (now cMs : Int) (alerts : List AlertState) :
    classifyAlerts state repo now cMs true alerts = (alerts, []) := by
  induction alerts with
  | nil => rfl
  | cons a rest ih => simp [classifyAlerts, ih]

lemma classifyAlerts_sendable_not_cooling {state : List DeliveryEvent}
    {repo : String} {now cMs : Int} {alerts : List AlertState} {a : AlertState}
    (h : a ∈ (classifyAlerts state repo now cMs false alerts).1) :
    a ∈ alerts ∧
      ¬(lastSentMs state repo a.id ≠ 0 ∧
        now - lastSentMs state repo a.id < cMs) := by
  induction alerts with
  | nil => simp [classifyAlerts] at h
  | cons b rest ih =>
    simp only [classifyAlerts, Bool.false_eq_true, if_false] at h
    by_cases hc : lastSentMs state repo b.id ≠ 0 ∧
        now - lastSentMs state repo b.id < cMs
    · rw [if_pos hc] at h
      obtain ⟨h1, h2⟩ := ih h
      exact ⟨List.mem_cons_of_mem _ h1, h2⟩
    · rw [if_neg hc] at h
      rcases List.mem_cons.mp h with rfl | h2
      · exact ⟨List.mem_cons_self _ _, hc⟩
      · obtain ⟨h1, h2⟩ := ih h2
        exact ⟨List.mem_cons_of_mem _ h1, h2⟩

lemma classifyAlerts_suppressed_cooling {state : List DeliveryEvent}
    {repo : String} {now cMs : Int} {alerts : List AlertState} {rid : AlertId}
    (h : rid ∈ (classifyAlerts state repo now cMs false alerts).2) :
    lastSentMs state repo rid ≠ 0 ∧ now - lastSentMs state repo rid < cMs := by
  induction alerts with
  | nil => simp [classifyAlerts] at h
  | cons b rest ih =>
    simp only [classifyAlerts, Bool.false_eq_true, if_false] at h
    by_cases hc : lastSentMs state repo b.id ≠ 0 ∧
        now - lastSentMs state repo b.id < cMs
    · rw [if_pos hc] at h
      rcases List.mem_cons.mp h with rfl | h2
      · exact hc
      · exact ih h2
    · rw [if_neg hc] at h
      exact ih h

lemma classifyAlerts_cooling_suppressed {state : List DeliveryEvent}
    {repo : String} {now cMs : Int} {alerts : List AlertState} {a : AlertState}
    (ha : a ∈ alerts) (h1 : lastSentMs state repo a.id ≠ 0)
    (h2 : now - lastSentMs state repo a.id < cMs) :
    a.id ∈ (classifyAlerts state repo now cMs false alerts).2 := by
  induction alerts with
  | nil => simp at ha
  | cons b rest ih =>
    simp only [classifyAlerts, Bool.false_eq_true, if_false]
    rcases List.mem_cons.mp ha with rfl | hmem
    · rw [if_pos ⟨h1, h2⟩]
      exact List.mem_cons_self _ _
    · by_cases hc : lastSentMs state repo b.id ≠ 0 ∧
          now - lastSentMs state repo b.id < cMs
      · rw [if_pos hc]
        exact List.mem_cons_of_mem _ (ih hmem)
      · rw [if_neg hc]
        exact ih hmem

/-- Full case characterization of `dispatchRepoAlerts`: one clause per exit
of the source function. -/
lemma dispatch_spec (envc : EnvConfig) (tok : Bool) (repo gen : String)
    (settings : AlertSettings) (force : Bool) (channel : AlertChannel)
    (now : Int) (lastCommitAt : Option (Option Int)) (prs : List PullRequest)
    (issues : List Issue) (staleOpenNow : Option Int)
    (state : List DeliveryEvent) :
    let ev := evaluateRepoAlerts repo gen settings now lastCommitAt prs issues
      staleOpenNow
    let cls := classifyAlerts state repo now (settings.cooldownHours * 3600000)
      force ev.activeAlerts
    let out := dispatchRepoAlerts envc tok repo gen settings force channel now
      lastCommitAt prs issues staleOpenNow state
    (settings.enabled = false → force = false →
      out = (.ok ⟨false, "Alerts are disabled for this repository.", [], [],
        none, none⟩, state)) ∧
    ((settings.enabled = true ∨ force = true) → ev.activeAlerts.length = 0 →
      out = (.ok ⟨false, "No active alerts to send.", [], [], none, none⟩,
        state)) ∧
    ((settings.enabled = true ∨ force = true) → ev.activeAlerts.length ≠ 0 →
      resolveDeliveryTarget envc channel = none →
      out = (.error .configError, state)) ∧
    (∀ target, (settings.enabled = true ∨ force = true) →
      ev.activeAlerts.length ≠ 0 →
      resolveDeliveryTarget envc channel = some target →
      (cls.1.length = 0 →
        out = (.ok ⟨false, "All active alerts are in cooldown.", cls.2, [],
          none, none⟩, state)) ∧
      (cls.1.length ≠ 0 → tok = false →
        out = (.error .transportFailed, state)) ∧
      (cls.1.length ≠ 0 → tok = true →
        out = (.ok ⟨true, "", cls.2, cls.1.map (·.id), some target.kind,
            some now⟩,
          state ++ cls.1.map (fun alert =>
            ⟨repo, alert.id, alert.severity, now, target.kind, force⟩)))) := by
  intro ev cls out
  refine ⟨?_, ?_, ?_, ?_⟩
  · intro he hf
    show dispatchRepoAlerts envc tok repo gen settings force channel now
      lastCommitAt prs issues staleOpenNow state = _
    unfold dispatchRepoAlerts
    rw [he, hf]
    rfl
  · intro hef h0
    show dispatchRepoAlerts envc tok repo gen settings force channel now
      lastCommitAt prs issues staleOpenNow state = _
    unfold dispatchRepoAlerts
    have hcond : (!settings.enabled && !force) = false := by
      rcases hef with he | hf
      · rw [he]; rfl
      · rw [hf]; simp
    rw [hcond]
    simp only [Bool.false_eq_true, if_false]
    rw [if_pos h0]
  · intro hef h0 htgt
    show dispatchRepoAlerts envc tok repo gen settings force channel now
      lastCommitAt prs issues staleOpenNow state = _
    unfold dispatchRepoAlerts
    have hcond : (!settings.enabled && !force) = false := by
      rcases hef with he | hf
      · rw [he]; rfl
      · rw [hf]; simp
    rw [hcond]
    simp only [Bool.false_eq_true, if_false]
    rw [if_neg h0, htgt]
  · intro target hef h0 htgt
    have hout : out =
        (if cls.1.length = 0 then
          (.ok ⟨false, "All active alerts are in cooldown.", cls.2, [], none,
            none⟩, state)
        else if !tok then (.error .transportFailed, state)
        else
          (.ok ⟨true, "", cls.2, cls.1.map (·.id), some target.kind, some now⟩,
            state ++ cls.1.map (fun alert =>
              ⟨repo, alert.id, alert.severity, now, target.kind, force⟩))) := by
      show dispatchRepoAlerts envc tok repo gen settings force channel now
        lastCommitAt prs issues staleOpenNow state = _
      unfold dispatchRepoAlerts
      have hcond : (!settings.enabled && !force) = false := by
        rcases hef with he | hf
        · rw [he]; rfl
        · rw [hf]; simp
      rw [hcond]
      simp only [Bool.false_eq_true, if_false]
      rw [if_neg h0, htgt]
    refine ⟨?_, ?_, ?_⟩
    · intro hz
      rw [hout, if_pos hz]
    · intro hnz htok
      rw [hout, if_neg hnz, htok]
      rfl
    · intro hnz htok
      rw [hout, if_neg hnz, htok]
      rfl

/-- Exactly one of the six exits of `dispatchRepoAlerts` happens:
disabled skip, no-active skip, configuration error, cooldown skip,
transport failure, or a successful send that appends one event per sent
rule. -/
lemma dispatch_cases (envc : EnvConfig) (tok : Bool) (repo gen : String)
    (settings : AlertSettings) (force : Bool) (channel : AlertChannel)
    (now : Int) (lastCommitAt : Option (Option Int)) (prs : List PullRequest)
    (issues : List Issue) (staleOpenNow : Option Int)
    (state : List DeliveryEvent) :
    let ev := evaluateRepoAlerts repo gen settings now lastCommitAt prs issues
      staleOpenNow
    let cls := classifyAlerts state repo now (settings.cooldownHours * 3600000)
      force ev.activeAlerts
    let out := dispatchRepoAlerts envc tok repo gen settings force channel now
      lastCommitAt prs issues staleOpenNow state
    (settings.enabled = false ∧ force = false ∧
      out = (.ok ⟨false, "Alerts are disabled for this repository.", [], [],
        none, none⟩, state)) ∨
    ((settings.enabled = true ∨ force = true) ∧ ev.activeAlerts.length = 0 ∧
      out = (.ok ⟨false, "No active alerts to send.", [], [], none, none⟩,
        state)) ∨
    ((settings.enabled = true ∨ force = true) ∧ ev.activeAlerts.length ≠ 0 ∧
      resolveDeliveryTarget envc channel = none ∧
      out = (.error .configError, state)) ∨
    ((settings.enabled = true ∨ force = true) ∧ ev.activeAlerts.length ≠ 0 ∧
      ∃ target, resolveDeliveryTarget envc channel = some target ∧
        cls.1.length = 0 ∧
        out = (.ok ⟨false, "All active alerts are in cooldown.", cls.2, [],
          none, none⟩, state)) ∨
    ((settings.enabled = true ∨ force = true) ∧ ev.activeAlerts.length ≠ 0 ∧
      ∃ target, resolveDeliveryTarget envc channel = some target ∧
        cls.1.length ≠ 0 ∧ tok = false ∧
        out = (.error .transportFailed, state)) ∨
    ((settings.enabled = true ∨ force = true) ∧ ev.activeAlerts.length ≠ 0 ∧
      ∃ target, resolveDeliveryTarget envc channel = some target ∧
        cls.1.length ≠ 0 ∧ tok = true ∧
        out = (.ok ⟨true, "", cls.2, cls.1.map (·.id), some target.kind,
            some now⟩,
          state ++ cls.1.map (fun alert =>
            ⟨repo, alert.id, alert.severity, now, target.kind, force⟩))) := by
  intro ev cls out
  obtain ⟨s1, s2, s3, s4⟩ := dispatch_spec envc tok repo gen settings force
    channel now lastCommitAt prs issues staleOpenNow state
  have main : (settings.enabled = true ∨ force = true) →
      (settings.enabled = false ∧ force = false ∧
        out = (.ok ⟨false, "Alerts are disabled for this repository.", [], [],
          none, none⟩, state)) ∨
      ((settings.enabled = true ∨ force = true) ∧ ev.activeAlerts.length = 0 ∧
        out = (.ok ⟨false, "No active alerts to send.", [], [], none, none⟩,
          state)) ∨
      ((settings.enabled = true ∨ force = true) ∧ ev.activeAlerts.length ≠ 0 ∧
        resolveDeliveryTarget envc channel = none ∧
        out = (.error .configError, state)) ∨
      ((settings.enabled = true ∨ force = true) ∧ ev.activeAlerts.length ≠ 0 ∧
        ∃ target, resolveDeliveryTarget envc channel = some target ∧
          cls.1.length = 0 ∧
          out = (.ok ⟨false, "All active alerts are in cooldown.", cls.2, [],
            none, none⟩, state)) ∨
      ((settings.enabled = true ∨ force = true) ∧ ev.activeAlerts.length ≠ 0 ∧
        ∃ target, resolveDeliveryTarget envc channel = some target ∧
          cls.1.length ≠ 0 ∧ tok = false ∧
          out = (.error .transportFailed, state)) ∨
      ((settings.enabled = true ∨ force = true) ∧ ev.activeAlerts.length ≠ 0 ∧
        ∃ target, resolveDeliveryTarget envc channel = some target ∧
          cls.1.length ≠ 0 ∧ tok = true ∧
          out = (.ok ⟨true, "", cls.2, cls.1.map (·.id), some target.kind,
              some now⟩,
            state ++ cls.1.map (fun alert =>
              ⟨repo, alert.id, alert.severity, now, target.kind, force⟩))) := by
    intro hef
    by_cases h0 : ev.activeAlerts.length = 0
    · exact Or.inr (Or.inl ⟨hef, h0, s2 hef h0⟩)
    · rcases Option.eq_none_or_eq_some (resolveDeliveryTarget envc channel) with
        htgt | ⟨target, htgt⟩
      · exact Or.inr (Or.inr (Or.inl ⟨hef, h0, htgt, s3 hef h0 htgt⟩))
      · obtain ⟨t1, t2, t3⟩ := s4 target hef h0 htgt
        by_cases hz : cls.1.length = 0
        · exact Or.inr (Or.inr (Or.inr (Or.inl
            ⟨hef, h0, target, htgt, hz, t1 hz⟩)))
        · rcases Bool.eq_false_or_eq_true tok with htok | htok
          · exact Or.inr (Or.inr (Or.inr (Or.inr (Or.inr
              ⟨hef, h0, target, htgt, hz, htok, t3 hz htok⟩))))
          · exact Or.inr (Or.inr (Or.inr (Or.inr (Or.inl
              ⟨hef, h0, target, htgt, hz, htok, t2 hz htok⟩))))
  rcases Bool.eq_false_or_eq_true settings.enabled with he | he
  · exact main (Or.inl he)
  · rcases Bool.eq_false_or_eq_true force with hf | hf
    · exact main (Or.inr hf)
    · exact Or.inl ⟨he, hf, s1 he hf⟩

/-- **C1 (counterexample).** The cooldown lookup maps a stored epoch
timestamp (`sentAt = 0`) to the falsy `0`, which `if (lastSentMs && …)`
cannot distinguish from "never sent": with one `NO_COMMITS` event at 0 ms
on record, an unforced dispatch one hour later (cooldown 24 h) does not
suppress the rule — it sends it and records a second event for the same
(repository, rule) pair only one hour after the first. -/
theorem dispatch_cooldown_epoch_counterexample :
    let state0 : List DeliveryEvent :=
      [⟨"o/r", .NO_COMMITS, .HIGH, 0, .webhook, false⟩]
    let out := dispatchRepoAlerts ⟨some "https://w.example/hook", none, none⟩
      true "o/r" "t" DEFAULT_ALERT_SETTINGS false .auto 3600000 none [] [] none
      state0
    lastSentMs state0 "o/r" .NO_COMMITS = 0 ∧
    (3600000 : Int) - 0 < DEFAULT_ALERT_SETTINGS.cooldownHours * 3600000 ∧
    out.1 = .ok ⟨true, "", [], [.NO_COMMITS], some .webhook, some 3600000⟩ ∧
    out.2 = [⟨"o/r", .NO_COMMITS, .HIGH, 0, .webhook, false⟩,
             ⟨"o/r", .NO_COMMITS, .HIGH, 3600000, .webhook, false⟩] := by
  refine ⟨by decide, by decide, by decide, by decide⟩

/-- **C1 (amended).** An unforced dispatch sends an active rule only when
its most recent recorded DeliveryEvent is absent, carries the epoch
sentinel timestamp `0` (which the truthiness test reads as "never sent"),
or is at least `cooldownHours` old — in the non-sentinel case every
recorded event of the (repository, rule) pair is at least `cooldownHours`
older than the new one; a rule is reported suppressed exactly when its
most recent event is non-sentinel and younger than `cooldownHours`; a
forced dispatch sends every active rule regardless of last-sent time. -/
theorem dispatch_cooldown_amended (envc : EnvConfig) (tok : Bool)
    (repo gen : String) (settings : AlertSettings) (channel : AlertChannel)
    (now : Int) (lastCommitAt : Option (Option Int)) (prs : List PullRequest)
    (issues : List Issue) (staleOpenNow : Option Int)
    (state : List DeliveryEvent) :
    (∀ r, (dispatchRepoAlerts envc tok repo gen settings false channel now
        lastCommitAt prs issues staleOpenNow state).1 = .ok r →
      (∀ rid ∈ r.sentAlerts,
        lastSentMs state repo rid = 0 ∨
        settings.cooldownHours * 3600000 ≤ now - lastSentMs state repo rid) ∧
      (∀ rid ∈ r.sentAlerts, lastSentMs state repo rid ≠ 0 →
        ∀ e ∈ state, e.repo = repo → e.ruleId = rid →
          settings.cooldownHours * 3600000 ≤ now - e.sentAt) ∧
      (∀ rid ∈ r.suppressed,
        lastSentMs state repo rid ≠ 0 ∧
        now - lastSentMs state repo rid <
          settings.cooldownHours * 3600000)) ∧
    (∀ r, (dispatchRepoAlerts envc tok repo gen settings true channel now
        lastCommitAt prs issues staleOpenNow state).1 = .ok r →
      r.sentAlerts = (evaluateRepoAlerts repo gen settings now lastCommitAt
        prs issues staleOpenNow).activeAlerts.map (·.id) ∧
      r.suppressed = []) := by
  constructor
  · intro r hr
    rcases dispatch_cases envc tok repo gen settings false channel now
        lastCommitAt prs issues staleOpenNow state with
      ⟨-, -, hout⟩ | ⟨-, -, hout⟩ | ⟨-, -, -, hout⟩ |
      ⟨-, -, target, htgt, hz, hout⟩ | ⟨-, -, target, htgt, hz, htok, hout⟩ |
      ⟨-, -, target, htgt, hz, htok, hout⟩
    · rw [hout] at hr
      have hrr : r = ⟨false, "Alerts are disabled for this repository.", [],
          [], none, none⟩ := (Except.ok.inj hr).symm
      subst hrr
      refine ⟨?_, ?_, ?_⟩ <;> intro rid hrid <;> simp at hrid
    · rw [hout] at hr
      have hrr : r = ⟨false, "No active alerts to send.", [], [], none,
          none⟩ := (Except.ok.inj hr).symm
      subst hrr
      refine ⟨?_, ?_, ?_⟩ <;> intro rid hrid <;> simp at hrid
    · rw [hout] at hr
      exact absurd hr (by simp)
    · rw [hout] at hr
      have hrr : r = ⟨false, "All active alerts are in cooldown.", _, [],
          none, none⟩ := (Except.ok.inj hr).symm
      subst hrr
      refine ⟨?_, ?_, ?_⟩
      · intro rid hrid
        simp at hrid
      · intro rid hrid
        simp at hrid
      · intro rid hrid
        exact classifyAlerts_suppressed_cooling hrid
    · rw [hout] at hr
      exact absurd hr (by simp)
    · rw [hout] at hr
      have hrr : r = ⟨true, "", _, _, some target.kind, some now⟩ :=
        (Except.ok.inj hr).symm
      subst hrr
      have hsendable : ∀ rid, rid ∈ (classifyAlerts state repo now
          (settings.cooldownHours * 3600000) false (evaluateRepoAlerts repo
          gen settings now lastCommitAt prs issues
          staleOpenNow).activeAlerts).1.map (·.id) →
          lastSentMs state repo rid = 0 ∨
          settings.cooldownHours * 3600000 ≤ now - lastSentMs state repo rid := by
        intro rid hrid
        obtain ⟨a, ha, rfl⟩ := List.mem_map.mp hrid
        obtain ⟨-, hnc⟩ := classifyAlerts_sendable_not_cooling ha
        by_cases hL : lastSentMs state repo a.id = 0
        · exact Or.inl hL
        · rcases not_and_or.mp hnc with h | h
          · exact absurd (not_not.mp h) hL
          · exact Or.inr (not_lt.mp h)
      refine ⟨hsendable, ?_, ?_⟩
      · intro rid hrid hL e he hrepo hrule
        rcases hsendable rid hrid with h | h
        · exact absurd h hL
        · have hle := sentAt_le_lastSentMs he hrepo hrule
          omega
      · intro rid hrid
        exact classifyAlerts_suppressed_cooling hrid
  · intro r hr
    rcases dispatch_cases envc tok repo gen settings true channel now
        lastCommitAt prs issues staleOpenNow state with
      ⟨-, hf, -⟩ | ⟨-, h0, hout⟩ | ⟨-, -, -, hout⟩ |
      ⟨-, h0, target, htgt, hz, hout⟩ | ⟨-, -, target, htgt, hz, htok, hout⟩ |
      ⟨-, -, target, htgt, hz, htok, hout⟩
    · exact absurd hf (by simp)
    · rw [hout] at hr
      have hrr : r = ⟨false, "No active alerts to send.", [], [], none,
          none⟩ := (Except.ok.inj hr).symm
      subst hrr
      rw [List.length_eq_zero.mp h0]
      exact ⟨rfl, rfl⟩
    · rw [hout] at hr
      exact absurd hr (by simp)
    · rw [classifyAlerts_force] at hz
      exact absurd hz h0
    · rw [hout] at hr
      exact absurd hr (by simp)
    · rw [hout] at hr
      have hrr : r = ⟨true, "", _, _, some target.kind, some now⟩ :=
        (Except.ok.inj hr).symm
      subst hrr
      rw [classifyAlerts_force]
      exact ⟨rfl, rfl⟩

/-- **C1 (witness).** The amended theorem applied to a delivery history
holding one `NO_COMMITS` event 25 hours old: the unforced dispatch sends
the rule, and indeed its last-sent lookup is 25 h ≥ 24 h in the past. -/
theorem dispatch_cooldown_amended_witness :
    (90000000 : Int) - lastSentMs
      [⟨"o/r", .NO_COMMITS, .HIGH, 3600000, .webhook, false⟩] "o/r"
      .NO_COMMITS ≥ DEFAULT_ALERT_SETTINGS.cooldownHours * 3600000 ∨
    lastSentMs [⟨"o/r", .NO_COMMITS, .HIGH, 3600000, .webhook, false⟩] "o/r"
      .NO_COMMITS = 0 := by
  have h := (dispatch_cooldown_amended
    ⟨some "https://w.example/hook", none, none⟩ true "o/r" "t"
    DEFAULT_ALERT_SETTINGS .auto 90000000 none [] [] none
    [⟨"o/r", .NO_COMMITS, .HIGH, 3600000, .webhook, false⟩]).1
    ⟨true, "", [], [.NO_COMMITS], some .webhook, some 90000000⟩ (by decide)
  rcases h.1 .NO_COMMITS (by decide) with h1 | h1
  · exact Or.inr h1
  · exact Or.inl h1

/-- **C7 (counterexample).** With alerting disabled and the call not
forced, a dispatch with one active alert and no resolvable delivery target
returns a successful skip — the disabled early-return runs before target
resolution, so no configuration error is raised. -/
theorem dispatch_disabled_skip_counterexample :
    0 < (evaluateRepoAlerts "o/r" "t" ⟨false, 24, DEFAULT_ALERT_SETTINGS.rules⟩
      (200 * MS_PER_DAY) none [] [] none).activeAlerts.length ∧
    resolveDeliveryTarget ⟨none, none, none⟩ .auto = none ∧
    (dispatchRepoAlerts ⟨none, none, none⟩ true "o/r" "t"
        ⟨false, 24, DEFAULT_ALERT_SETTINGS.rules⟩ false .auto
        (200 * MS_PER_DAY) none [] [] none []).1 =
      .ok ⟨false, "Alerts are disabled for this repository.", [], [], none,
        none⟩ := by
  refine ⟨by decide, by decide, by decide⟩

/-- **C7 (amended).** A dispatch whose evaluation has no active alerts
returns `sent = false` with no delivery event and without consulting the
transport (the outcome and state are the same whatever the transport would
answer); a dispatch with at least one active alert **and alerting enabled
(or forced)** but no resolvable target fails with the configuration
error. -/
theorem dispatch_skip_and_config_error_amended (envc : EnvConfig)
    (repo gen : String) (settings : AlertSettings) (force : Bool)
    (channel : AlertChannel) (now : Int) (lastCommitAt : Option (Option Int))
    (prs : List PullRequest) (issues : List Issue) (staleOpenNow : Option Int)
    (state : List DeliveryEvent) :
    ((evaluateRepoAlerts repo gen settings now lastCommitAt prs issues
        staleOpenNow).activeAlerts.length = 0 →
      ∀ tok, ∃ r, dispatchRepoAlerts envc tok repo gen settings force channel
          now lastCommitAt prs issues staleOpenNow state = (.ok r, state) ∧
        r.sent = false ∧ r.sentAlerts = []) ∧
    ((evaluateRepoAlerts repo gen settings now lastCommitAt prs issues
        staleOpenNow).activeAlerts.length ≠ 0 →
      (settings.enabled = true ∨ force = true) →
      resolveDeliveryTarget envc channel = none →
      ∀ tok, dispatchRepoAlerts envc tok repo gen settings force channel now
        lastCommitAt prs issues staleOpenNow state =
        (.error .configError, state)) := by
  constructor
  · intro h0 tok
    obtain ⟨s1, s2, s3, s4⟩ := dispatch_spec envc tok repo gen settings force
      channel now lastCommitAt prs issues staleOpenNow state
    rcases Bool.eq_false_or_eq_true settings.enabled with he | he
    · exact ⟨_, s2 (Or.inl he) h0, rfl, rfl⟩
    · rcases Bool.eq_false_or_eq_true force with hf | hf
      · exact ⟨_, s2 (Or.inr hf) h0, rfl, rfl⟩
      · exact ⟨_, s1 he hf, rfl, rfl⟩
  · intro h0 hef htgt tok
    obtain ⟨-, -, s3, -⟩ := dispatch_spec envc tok repo gen settings force
      channel now lastCommitAt prs issues staleOpenNow state
    exact s3 hef h0 htgt

/-- **C7 (witness).** The amended theorem at concrete inputs: a quiet
repository (fresh commit, nothing stuck, nothing stale) skips with
`sent = false` even when the transport would fail, and an unconfigured
target plus one active alert raises the configuration error. -/
theorem dispatch_skip_and_config_error_witness :
    (∃ r, dispatchRepoAlerts ⟨none, none, none⟩ false "o/r" "t"
        DEFAULT_ALERT_SETTINGS false .auto (200 * MS_PER_DAY)
        (some (some (200 * MS_PER_DAY))) [] [] none [] = (.ok r, []) ∧
      r.sent = false ∧ r.sentAlerts = []) ∧
    dispatchRepoAlerts ⟨none, none, none⟩ true "o/r" "t"
        DEFAULT_ALERT_SETTINGS false .auto (200 * MS_PER_DAY) none [] [] none
        [] =
      (.error .configError, []) :=
  ⟨(dispatch_skip_and_config_error_amended ⟨none, none, none⟩ "o/r" "t"
      DEFAULT_ALERT_SETTINGS false .auto (200 * MS_PER_DAY)
      (some (some (200 * MS_PER_DAY))) [] [] none []).1 (by decide) false,
   (dispatch_skip_and_config_error_amended ⟨none, none, none⟩ "o/r" "t"
      DEFAULT_ALERT_SETTINGS false .auto (200 * MS_PER_DAY) none [] [] none
      []).2 (by decide) (Or.inl rfl) rfl true⟩

/-- **C8.** When the transport fails, the dispatch call never reports a
successful send, the delivery history is unchanged (no DeliveryEvent is
written), the call fails with the transport error exactly when a working
transport would have produced a successful send, and a retry starts from
the identical state. -/
theorem transport_failure_no_delivery_event (envc : EnvConfig)
    (repo gen : String) (settings : AlertSettings) (force : Bool)
    (channel : AlertChannel) (now : Int) (lastCommitAt : Option (Option Int))
    (prs : List PullRequest) (issues : List Issue) (staleOpenNow : Option Int)
    (state : List DeliveryEvent) :
    (dispatchRepoAlerts envc false repo gen settings force channel now
      lastCommitAt prs issues staleOpenNow state).2 = state ∧
    (∀ r, (dispatchRepoAlerts envc false repo gen settings force channel now
        lastCommitAt prs issues staleOpenNow state).1 = .ok r →
      r.sent = false ∧ r.sentAlerts = []) ∧
    ((dispatchRepoAlerts envc false repo gen settings force channel now
        lastCommitAt prs issues staleOpenNow state).1 =
        .error .transportFailed ↔
      ∃ r, (dispatchRepoAlerts envc true repo gen settings force channel now
        lastCommitAt prs issues staleOpenNow state).1 = .ok r ∧
        r.sent = true) ∧
    (∀ tok2, dispatchRepoAlerts envc tok2 repo gen settings force channel now
        lastCommitAt prs issues staleOpenNow
        ((dispatchRepoAlerts envc false repo gen settings force channel now
          lastCommitAt prs issues staleOpenNow state).2) =
      dispatchRepoAlerts envc tok2 repo gen settings force channel now
        lastCommitAt prs issues staleOpenNow state) := by
  obtain ⟨s1T, s2T, s3T, s4T⟩ := dispatch_spec envc true repo gen settings
    force channel now lastCommitAt prs issues staleOpenNow state
  rcases dispatch_cases envc false repo gen settings force channel now
      lastCommitAt prs issues staleOpenNow state with
    ⟨he, hf, hout⟩ | ⟨hef, h0, hout⟩ | ⟨hef, h0, htgt, hout⟩ |
    ⟨hef, h0, target, htgt, hz, hout⟩ | ⟨hef, h0, target, htgt, hz, -, hout⟩ |
    ⟨-, -, -, -, -, htok, -⟩
  · have hst : (dispatchRepoAlerts envc false repo gen settings force channel
        now lastCommitAt prs issues staleOpenNow state).2 = state := by
      rw [hout]
    have houtT := s1T he hf
    refine ⟨hst, ?_, ?_, fun tok2 => by rw [hst]⟩
    · intro r hr
      rw [hout] at hr
      have hrr := (Except.ok.inj hr).symm
      subst hrr
      exact ⟨rfl, rfl⟩
    · rw [hout, houtT]
      simp
  · have hst : (dispatchRepoAlerts envc false repo gen settings force channel
        now lastCommitAt prs issues staleOpenNow state).2 = state := by
      rw [hout]
    have houtT := s2T hef h0
    refine ⟨hst, ?_, ?_, fun tok2 => by rw [hst]⟩
    · intro r hr
      rw [hout] at hr
      have hrr := (Except.ok.inj hr).symm
      subst hrr
      exact ⟨rfl, rfl⟩
    · rw [hout, houtT]
      simp
  · have hst : (dispatchRepoAlerts envc false repo gen settings force channel
        now lastCommitAt prs issues staleOpenNow state).2 = state := by
      rw [hout]
    have houtT := s3T hef h0 htgt
    refine ⟨hst, ?_, ?_, fun tok2 => by rw [hst]⟩
    · intro r hr
      rw [hout] at hr
      exact absurd hr (by simp)
    · rw [hout, houtT]
      simp
  · have hst : (dispatchRepoAlerts envc false repo gen settings force channel
        now lastCommitAt prs issues staleOpenNow state).2 = state := by
      rw [hout]
    have houtT := (s4T target hef h0 htgt).1 hz
    refine ⟨hst, ?_, ?_, fun tok2 => by rw [hst]⟩
    · intro r hr
      rw [hout] at hr
      have hrr := (Except.ok.inj hr).symm
      subst hrr
      exact ⟨rfl, rfl⟩
    · rw [hout, houtT]
      simp
  · have hst : (dispatchRepoAlerts envc false repo gen settings force channel
        now lastCommitAt prs issues staleOpenNow state).2 = state := by
      rw [hout]
    have houtT := (s4T target hef h0 htgt).2.2 hz rfl
    refine ⟨hst, ?_, ?_, fun tok2 => by rw [hst]⟩
    · intro r hr
      rw [hout] at hr
      exact absurd hr (by simp)
    · rw [hout, houtT]
      simp
  · exact absurd htok (by simp)

/-- **C8 (witness).** The theorem at concrete inputs: with one active alert
and a configured webhook but a failing transport, the delivery history
stays empty and the error is the transport failure (because the working
transport would have sent). -/
theorem transport_failure_no_delivery_event_witness :
    (dispatchRepoAlerts ⟨some "https://w.example/hook", none, none⟩ false
      "o/r" "t" DEFAULT_ALERT_SETTINGS false .auto (200 * MS_PER_DAY) none []
      [] none []).2 = [] ∧
    (dispatchRepoAlerts ⟨some "https://w.example/hook", none, none⟩ false
      "o/r" "t" DEFAULT_ALERT_SETTINGS false .auto (200 * MS_PER_DAY) none []
      [] none []).1 = .error .transportFailed :=
  ⟨(transport_failure_no_delivery_event ⟨some "https://w.example/hook", none,
      none⟩ "o/r" "t" DEFAULT_ALERT_SETTINGS false .auto (200 * MS_PER_DAY)
      none [] [] none []).1,
   (transport_failure_no_delivery_event ⟨some "https://w.example/hook", none,
      none⟩ "o/r" "t" DEFAULT_ALERT_SETTINGS false .auto (200 * MS_PER_DAY)
      none [] [] none []).2.2.1.mpr
    ⟨⟨true, "", [], [.NO_COMMITS], some .webhook, some (200 * MS_PER_DAY)⟩,
      by decide, rfl⟩⟩

/-- **C10 (counterexample).** A forced dispatch at the Unix epoch records
its `force = true` event with `sentAt = 0`; the cooldown lookup turns that
timestamp into the falsy `0`, so an unforced dispatch one hour later
(cooldown 24 h) does **not** suppress the rule — it sends it again instead
of honouring the forced send's cooldown clock. -/
theorem forced_dispatch_epoch_counterexample :
    (dispatchRepoAlerts ⟨some "https://w.example/hook", none, none⟩ true "o/r"
      "t" DEFAULT_ALERT_SETTINGS true .auto 0 none [] [] none []).2 =
      [⟨"o/r", .NO_COMMITS, .HIGH, 0, .webhook, true⟩] ∧
    (3600000 : Int) - 0 < DEFAULT_ALERT_SETTINGS.cooldownHours * 3600000 ∧
    (dispatchRepoAlerts ⟨some "https://w.example/hook", none, none⟩ true "o/r"
      "t" DEFAULT_ALERT_SETTINGS false .auto 3600000 none [] [] none
      ((dispatchRepoAlerts ⟨some "https://w.example/hook", none, none⟩ true
        "o/r" "t" DEFAULT_ALERT_SETTINGS true .auto 0 none [] [] none
        []).2)).1 =
      .ok ⟨true, "", [], [.NO_COMMITS], some .webhook, some 3600000⟩ := by
  refine ⟨by decide, by decide, by decide⟩

/-- **C10 (amended).** A forced dispatch that returns a result records one
`force = true` DeliveryEvent (timestamped at its send time `t`) for every
rule it sends; and — provided `t` is positive, so the lookup cannot read it
as the never-sent sentinel `0` — any later unforced dispatch within
`cooldownHours` of `t` that finds such a rule active again reports it
suppressed: the forced send resets the cooldown clock. -/
theorem forced_dispatch_cooldown_amended (envc1 envc2 : EnvConfig)
    (tok1 tok2 : Bool) (repo gen1 gen2 : String)
    (settings1 settings2 : AlertSettings) (channel1 channel2 : AlertChannel)
    (t now2 : Int) (lc1 lc2 : Option (Option Int))
    (prs1 prs2 : List PullRequest) (iss1 iss2 : List Issue)
    (so1 so2 : Option Int) (state : List DeliveryEvent) (r1 : DispatchResult)
    (h1 : (dispatchRepoAlerts envc1 tok1 repo gen1 settings1 true channel1 t
      lc1 prs1 iss1 so1 state).1 = .ok r1) :
    (∃ evs, (dispatchRepoAlerts envc1 tok1 repo gen1 settings1 true channel1 t
        lc1 prs1 iss1 so1 state).2 = state ++ evs ∧
      (∀ e ∈ evs, e.force = true ∧ e.sentAt = t ∧ e.repo = repo ∧
        e.ruleId ∈ r1.sentAlerts) ∧
      (∀ rid ∈ r1.sentAlerts, ∃ e ∈ evs, e.ruleId = rid)) ∧
    (∀ rid ∈ r1.sentAlerts, 0 < t →
      now2 - t < settings2.cooldownHours * 3600000 →
      settings2.enabled = true →
      rid ∈ (evaluateRepoAlerts repo gen2 settings2 now2 lc2 prs2 iss2
        so2).activeAlerts.map (·.id) →
      ∀ r2, (dispatchRepoAlerts envc2 tok2 repo gen2 settings2 false channel2
          now2 lc2 prs2 iss2 so2
          ((dispatchRepoAlerts envc1 tok1 repo gen1 settings1 true channel1 t
            lc1 prs1 iss1 so1 state).2)).1 = .ok r2 →
      rid ∈ r2.suppressed) := by
  have partA : ∃ evs, (dispatchRepoAlerts envc1 tok1 repo gen1 settings1 true
      channel1 t lc1 prs1 iss1 so1 state).2 = state ++ evs ∧
      (∀ e ∈ evs, e.force = true ∧ e.sentAt = t ∧ e.repo = repo ∧
        e.ruleId ∈ r1.sentAlerts) ∧
      (∀ rid ∈ r1.sentAlerts, ∃ e ∈ evs, e.ruleId = rid) := by
    rcases dispatch_cases envc1 tok1 repo gen1 settings1 true channel1 t lc1
        prs1 iss1 so1 state with
      ⟨-, hf, -⟩ | ⟨-, h0, hout⟩ | ⟨-, -, -, hout⟩ |
      ⟨-, h0, target, htgt, hz, hout⟩ | ⟨-, -, target, htgt, hz, htok, hout⟩ |
      ⟨-, -, target, htgt, hz, htok, hout⟩
    · exact absurd hf (by simp)
    · rw [hout] at h1 ⊢
      have hrr := (Except.ok.inj h1).symm
      subst hrr
      exact ⟨[], by simp, by simp, by simp⟩
    · rw [hout] at h1
      exact absurd h1 (by simp)
    · rw [hout] at h1 ⊢
      have hrr := (Except.ok.inj h1).symm
      subst hrr
      exact ⟨[], by simp, by simp, by simp⟩
    · rw [hout] at h1
      exact absurd h1 (by simp)
    · rw [hout] at h1 ⊢
      have hrr := (Except.ok.inj h1).symm
      subst hrr
      refine ⟨_, rfl, ?_, ?_⟩
      · intro e he
        obtain ⟨a, ha, rfl⟩ := List.mem_map.mp he
        exact ⟨rfl, rfl, rfl, List.mem_map_of_mem _ ha⟩
      · intro rid hrid
        obtain ⟨a, ha, rfl⟩ := List.mem_map.mp hrid
        exact ⟨⟨repo, a.id, a.severity, t, target.kind, true⟩,
          List.mem_map_of_mem _ ha, rfl⟩
  refine ⟨partA, ?_⟩
  intro rid hrid ht hcool hen hact r2 hr2
  obtain ⟨evs, hsplit, hprops, hcover⟩ := partA
  obtain ⟨e, he, herid⟩ := hcover rid hrid
  obtain ⟨-, hesent, herepo, -⟩ := hprops e he
  have hmem : e ∈ (dispatchRepoAlerts envc1 tok1 repo gen1 settings1 true
      channel1 t lc1 prs1 iss1 so1 state).2 := by
    rw [hsplit]
    exact List.mem_append_right state he
  have hle := sentAt_le_lastSentMs hmem herepo herid
  rw [hesent] at hle
  obtain ⟨a, ha, haid⟩ := List.mem_map.mp hact
  have hsup : a.id ∈ (classifyAlerts ((dispatchRepoAlerts envc1 tok1 repo gen1
      settings1 true channel1 t lc1 prs1 iss1 so1 state).2) repo now2
      (settings2.cooldownHours * 3600000) false (evaluateRepoAlerts repo gen2
      settings2 now2 lc2 prs2 iss2 so2).activeAlerts).2 :=
    classifyAlerts_cooling_suppressed ha (by rw [haid]; omega)
      (by rw [haid]; omega)
  rcases dispatch_cases envc2 tok2 repo gen2 settings2 false channel2 now2 lc2
      prs2 iss2 so2 ((dispatchRepoAlerts envc1 tok1 repo gen1 settings1 true
        channel1 t lc1 prs1 iss1 so1 state).2) with
    ⟨he2, -, -⟩ | ⟨-, h02, -⟩ | ⟨-, -, -, hout2⟩ |
    ⟨-, -, target2, htgt2, hz2, hout2⟩ | ⟨-, -, target2, htgt2, hz2, -, hout2⟩ |
    ⟨-, -, target2, htgt2, hz2, -, hout2⟩
  · rw [hen] at he2
    exact absurd he2 (by simp)
  · rw [List.length_eq_zero] at h02
    rw [h02] at ha
    exact absurd ha (by simp)
  · rw [hout2] at hr2
    exact absurd hr2 (by simp)
  · rw [hout2] at hr2
    have hrr := (Except.ok.inj hr2).symm
    subst hrr
    rw [haid] at hsup
    exact hsup
  · rw [hout2] at hr2
    exact absurd hr2 (by simp)
  · rw [hout2] at hr2
    have hrr := (Except.ok.inj hr2).symm
    subst hrr
    rw [haid] at hsup
    exact hsup

/-- **C10 (witness).** The amended theorem on a concrete trace: a forced
send of `NO_COMMITS` at t = 1 h, then an unforced dispatch at 2 h — the
rule is active again, inside the 24 h cooldown of the forced send, and is
reported suppressed. -/
theorem forced_dispatch_cooldown_amended_witness :
    (dispatchRepoAlerts ⟨some "https://w.example/hook", none, none⟩ true "o/r"
      "t" DEFAULT_ALERT_SETTINGS false .auto 7200000 none [] [] none
      ((dispatchRepoAlerts ⟨some "https://w.example/hook", none, none⟩ true
        "o/r" "t" DEFAULT_ALERT_SETTINGS true .auto 3600000 none [] [] none
        []).2)).1 =
      .ok ⟨false, "All active alerts are in cooldown.", [.NO_COMMITS], [],
        none, none⟩ ∧
    AlertId.NO_COMMITS ∈ (⟨false, "All active alerts are in cooldown.",
      [.NO_COMMITS], [], none, none⟩ : DispatchResult).suppressed :=
  ⟨by decide,
   (forced_dispatch_cooldown_amended ⟨some "https://w.example/hook", none,
      none⟩ ⟨some "https://w.example/hook", none, none⟩ true true "o/r" "t"
      "t" DEFAULT_ALERT_SETTINGS DEFAULT_ALERT_SETTINGS .auto .auto 3600000
      7200000 none none [] [] [] [] none none []
      ⟨true, "", [], [.NO_COMMITS], some .webhook, some 3600000⟩
      (by decide)).2 .NO_COMMITS (by decide) (by decide) (by decide) rfl
      (by decide) _ (by decide)⟩

set_option maxRecDepth 8192 in
/-- **C9 (counterexample).** In the rich payload only the PR *title* inside
a preview entry is truncated to 72 characters — the entry as a whole (bullet,
link, idle-day suffix) is not: a stuck PR with an 80-character title
produces a preview entry of more than 72 characters in the built payload. -/
theorem discord_preview_entry_counterexample :
    (buildDiscordPayload
        (evaluateRepoAlerts "o/r" "t" DEFAULT_ALERT_SETTINGS
          (200 * MS_PER_DAY) (some (some (200 * MS_PER_DAY)))
          [⟨1, String.mk (List.replicate 80 'a'),
            "https://github.com/o/r/pull/1", some (195 * MS_PER_DAY), false⟩]
          [] none)
        (evaluateRepoAlerts "o/r" "t" DEFAULT_ALERT_SETTINGS
          (200 * MS_PER_DAY) (some (some (200 * MS_PER_DAY)))
          [⟨1, String.mk (List.replicate 80 'a'),
            "https://github.com/o/r/pull/1", some (195 * MS_PER_DAY), false⟩]
          [] none).activeAlerts).topStuck =
      some (stuckEntry ⟨1, String.mk (List.replicate 80 'a'),
        "https://github.com/o/r/pull/1", some (195 * MS_PER_DAY), 5⟩) ∧
    72 < (stuckEntry ⟨1, String.mk (List.replicate 80 'a'),
      "https://github.com/o/r/pull/1", some (195 * MS_PER_DAY), 5⟩).length := by
  refine ⟨by decide, by decide⟩

/-- **C9 (amended).** In the rich payload each preview entry's PR *title* is
truncated to 72 characters (the entry line itself may be longer), the
"Top Stuck PRs" field value never exceeds 1000 characters, the embed
description never exceeds 3900 characters, and every truncation replaces
the overflow with the ellipsis marker `…`. -/
theorem discord_payload_caps :
    (∀ pr : StuckPullRequest, (truncateText pr.title 72).length ≤ 72) ∧
    (∀ (ev : AlertEvaluation) (alerts : List AlertState),
      (buildDiscordPayload ev alerts).description.length ≤ 3900) ∧
    (∀ (ev : AlertEvaluation) (alerts : List AlertState) (v : String),
      (buildDiscordPayload ev alerts).topStuck = some v → v.length ≤ 1000) ∧
    (∀ (s : String) (max : Nat), 1 ≤ max → max < s.length →
      truncateText s max = String.mk (s.data.take (max - 1) ++ ['…'])) := by
  refine ⟨?_, ?_, ?_, ?_⟩
  · intro pr
    exact truncateText_length_le _ 72 (by norm_num)
  · intro ev alerts
    exact truncateText_length_le _ 3900 (by norm_num)
  · intro ev alerts v h
    simp only [buildDiscordPayload] at h
    split at h
    · exact absurd h (by simp)
    · have hv := (Option.some.inj h).symm
      subst hv
      exact truncateText_length_le _ 1000 (by norm_num)
  · intro s max h1 h2
    unfold truncateText
    rw [if_neg (not_le.mpr h2)]

/-- **C9 (witness).** The amended theorem at concrete inputs: an
80-character title truncates to at most 72; the preview field of a payload
with one stuck PR stays within 1000; and `truncateText "abcdef" 3` replaces
the overflow with the ellipsis. -/
theorem discord_payload_caps_witness :
    (truncateText (String.mk (List.replicate 80 'a')) 72).length ≤ 72 ∧
    (stuckEntry ⟨1, "p", "u", some (195 * MS_PER_DAY), 5⟩).length ≤ 1000 ∧
    truncateText "abcdef" 3 = String.mk ("abcdef".data.take 2 ++ ['…']) :=
  ⟨discord_payload_caps.1
      ⟨1, String.mk (List.replicate 80 'a'), "u", none, 5⟩,
   discord_payload_caps.2.2.1
      (evaluateRepoAlerts "o/r" "t" DEFAULT_ALERT_SETTINGS (200 * MS_PER_DAY)
        (some (some (200 * MS_PER_DAY)))
        [⟨1, "p", "u", some (195 * MS_PER_DAY), false⟩] [] none)
      []
      (stuckEntry ⟨1, "p", "u", some (195 * MS_PER_DAY), 5⟩) (by decide),
   discord_payload_caps.2.2.2 "abcdef" 3 (by decide) (by decide)⟩

end RepoDoctor
